import Mathlib

/-!
Shallow embedding of `ha-tkpd-tracker` (src/main.rs): identity derivation
(BLAKE2s with a 4-byte digest rendered as lowercase hex), the snapshot
extractor over the remote JSON response, URL/locator validation, the MQTT
discovery/state publisher (create and delete paths), and a sequential model
of one run of `main` recording its externally visible effects.
-/

/-! ## BLAKE2s (RFC 7693), as used by the `blake2` crate's `Blake2sVar` -/

/-- Right rotation of a 32-bit word by `n` bits. -/
def rotr (x n : Nat) : Nat := ((x >>> n) ||| (x <<< (32 - n))) % 4294967296

/-- BLAKE2s initialization vector (RFC 7693). -/
def blakeIV : List Nat :=
  [0x6A09E667, 0xBB67AE85, 0x3C6EF372, 0xA54FF53A,
   0x510E527F, 0x9B05688C, 0x1F83D9AB, 0x5BE0CD19]

/-- Message-schedule permutation rows (RFC 7693). -/
def sigmaRow (i : Nat) : List Nat :=
  match i % 10 with
  | 0 => [0,1,2,3,4,5,6,7,8,9,10,11,12,13,14,15]
  | 1 => [14,10,4,8,9,15,13,6,1,12,0,2,11,7,5,3]
  | 2 => [11,8,12,0,5,2,15,13,10,14,3,6,7,1,9,4]
  | 3 => [7,9,3,1,13,12,11,14,2,6,5,10,4,0,15,8]
  | 4 => [9,0,5,7,2,4,10,15,14,1,11,12,6,8,3,13]
  | 5 => [2,12,6,10,0,11,8,3,4,13,7,5,15,14,1,9]
  | 6 => [12,5,1,15,14,13,4,10,0,7,6,3,9,2,8,11]
  | 7 => [13,11,7,14,12,1,3,9,5,0,15,4,8,6,2,10]
  | 8 => [6,15,14,9,11,3,0,8,12,2,13,7,1,4,10,5]
  | _ => [10,2,8,4,7,6,1,5,15,11,9,14,3,12,13,0]

/-- The BLAKE2 G mixing function on the 16-word working vector. -/
def gMix (v : List Nat) (a b c d xi yi : Nat) : List Nat :=
  let va := v.getD a 0
  let vb := v.getD b 0
  let vc := v.getD c 0
  let vd := v.getD d 0
  let va := (va + vb + xi) % 4294967296
  let vd := rotr (Nat.xor vd va) 16
  let vc := (vc + vd) % 4294967296
  let vb := rotr (Nat.xor vb vc) 12
  let va := (va + vb + yi) % 4294967296
  let vd := rotr (Nat.xor vd va) 8
  let vc := (vc + vd) % 4294967296
  let vb := rotr (Nat.xor vb vc) 7
  (((v.set a va).set b vb).set c vc).set d vd

/-- One round of the BLAKE2s compression function. -/
def blakeRound (m : List Nat) (v : List Nat) (i : Nat) : List Nat :=
  let s := sigmaRow i
  let mAt := fun j => m.getD (s.getD j 0) 0
  let v := gMix v 0 4 8 12 (mAt 0) (mAt 1)
  let v := gMix v 1 5 9 13 (mAt 2) (mAt 3)
  let v := gMix v 2 6 10 14 (mAt 4) (mAt 5)
  let v := gMix v 3 7 11 15 (mAt 6) (mAt 7)
  let v := gMix v 0 5 10 15 (mAt 8) (mAt 9)
  let v := gMix v 1 6 11 12 (mAt 10) (mAt 11)
  let v := gMix v 2 7 8 13 (mAt 12) (mAt 13)
  gMix v 3 4 9 14 (mAt 14) (mAt 15)

/-- Load a (zero-padded) 64-byte block as 16 little-endian 32-bit words. -/
def toWords (block : List Nat) : List Nat :=
  (List.range 16).map (fun i =>
    block.getD (4 * i) 0
    + 256 * block.getD (4 * i + 1) 0
    + 65536 * block.getD (4 * i + 2) 0
    + 16777216 * block.getD (4 * i + 3) 0)

/-- The BLAKE2s compression function F (RFC 7693); `t` is the byte-offset
counter and `last` the final-block flag. -/
def compress (h : List Nat) (block : List Nat) (t : Nat) (last : Bool) : List Nat :=
  let m := toWords block
  let v := h ++ blakeIV
  let v := v.set 12 (Nat.xor (v.getD 12 0) (t % 4294967296))
  let v := v.set 13 (Nat.xor (v.getD 13 0) (t / 4294967296 % 4294967296))
  let v := if last then v.set 14 (Nat.xor (v.getD 14 0) 4294967295) else v
  let vf := (List.range 10).foldl (fun w i => blakeRound m w i) v
  (List.range 8).map (fun i =>
    Nat.xor (h.getD i 0) (Nat.xor (vf.getD i 0) (vf.getD (i + 8) 0)))

/-- Initial state for an unkeyed BLAKE2s with digest length `nn`: the IV with
the parameter block (fanout 1, depth 1, digest length `nn`) folded into
word 0. This is the digest-length personalization done by `Blake2sVar::new`. -/
def initH (nn : Nat) : List Nat :=
  blakeIV.set 0 (Nat.xor 0x6A09E667 (0x01010000 ||| nn))

/-- Split a byte list into 64-byte blocks; the final block is the (possibly
short or empty) remainder, and an empty input yields one empty block. -/
def chunks (l : List Nat) : List (List Nat) :=
  if _h : l.length ≤ 64 then [l]
  else l.take 64 :: chunks (l.drop 64)
termination_by l.length
decreasing_by
  simp only [List.length_drop]
  omega

/-- Iterate the compression function over the blocks, tracking the byte
counter; the final block is flagged as last. -/
def blake2sLoop (h : List Nat) (t : Nat) : List (List Nat) → List Nat
  | [] => h
  | [b] => compress h b (t + b.length) true
  | b :: b2 :: bs => blake2sLoop (compress h b (t + 64) false) (t + 64) (b2 :: bs)

/-- Serialize 32-bit words to bytes, little-endian. -/
def leBytes : List Nat → List Nat
  | [] => []
  | w :: ws =>
    w % 256 :: w / 256 % 256 :: w / 65536 % 256 :: w / 16777216 % 256 :: leBytes ws

/-- Unkeyed variable-output-length BLAKE2s: a digest of `nn` bytes over
`input` (the semantics of the `blake2` crate's `Blake2sVar`). -/
def blake2sVar (nn : Nat) (input : List Nat) : List Nat :=
  (leBytes (blake2sLoop (initH nn) 0 (chunks input))).take nn

/-! ## Hex rendering (`HexSlice`, src/main.rs lines 528-540) and `derive` -/

/-- Lowercase hexadecimal digit for a value below 16. -/
def hexDigit (n : Nat) : Char :=
  if n < 10 then Char.ofNat (48 + n) else Char.ofNat (87 + n)

/-- Two lowercase hex digits for one byte, zero-padded: Rust `{byte:0>2x}`. -/
def hexByte (b : Nat) : List Char := [hexDigit (b / 16), hexDigit (b % 16)]

/-- Hex digits of a byte slice, in order. -/
def hexRender : List Nat → List Char
  | [] => []
  | b :: bs => hexByte b ++ hexRender bs

/-- The `LowerHex` rendering of `HexSlice`: an optional `0x` prefix when the
alternate flag is set (it is not set at the call site in `main`), then each
byte as two zero-padded lowercase hex digits. -/
def hexSliceFmt (alt : Bool) (bs : List Nat) : String :=
  String.mk ((if alt then ['0', 'x'] else []) ++ hexRender bs)

/-- UTF-8 encoding of one character, matching Rust `str::as_bytes`. -/
def utf8Bytes (c : Char) : List Nat :=
  let n := c.toNat
  if n < 128 then [n]
  else if n < 2048 then [192 + n / 64, 128 + n % 64]
  else if n < 65536 then [224 + n / 4096, 128 + n / 64 % 64, 128 + n % 64]
  else [240 + n / 262144, 128 + n / 4096 % 64, 128 + n / 64 % 64, 128 + n % 64]

/-- UTF-8 bytes of a character list. -/
def utf8Encode : List Char → List Nat
  | [] => []
  | c :: cs => utf8Bytes c ++ utf8Encode cs

/-- UTF-8 bytes of a string (Rust `str::as_bytes`). -/
def strBytes (s : String) : List Nat := utf8Encode s.data

/-- Streaming hasher state: digest length and the bytes written so far.
BLAKE2s digests depend only on the concatenation of the written bytes, so
the incremental `write_all` API is modelled by buffering. -/
structure Blake2sState where
  outLen : Nat
  buf : List Nat

/-- `Blake2sVar::new(outLen)`. -/
def blake2sInit (outLen : Nat) : Blake2sState := ⟨outLen, []⟩

/-- `write_all(bytes)` on the hasher. -/
def blake2sUpdate (st : Blake2sState) (bytes : List Nat) : Blake2sState :=
  ⟨st.outLen, st.buf ++ bytes⟩

/-- `finalize_boxed()`: the digest bytes. -/
def blake2sFinalize (st : Blake2sState) : List Nat :=
  blake2sVar st.outLen st.buf

/-- Identity derivation (src/main.rs lines 159-164): a 4-byte `Blake2sVar`
digest over the shop domain's bytes then the product key's bytes, rendered
by `format!("{:x}", HexSlice(..))`. -/
def derive (shopDomain productKey : String) : String :=
  hexSliceFmt false
    (blake2sFinalize
      (blake2sUpdate (blake2sUpdate (blake2sInit 4) (strBytes shopDomain))
        (strBytes productKey)))

/-- Character class of the digits the hex renderer may produce:
`0`-`9` and `a`-`f`. -/
def isLowerHexDigit (c : Char) : Bool :=
  (48 ≤ c.toNat && c.toNat ≤ 57) || (97 ≤ c.toNat && c.toNat ≤ 102)

/-! ## JSON values (`serde_json::Value`) and serialization -/

/-- JSON values as consumed and produced by the program. `serde_json`
numbers appearing here are integers (`as_i64` projections and integer
literals in the emitted payloads). -/
inductive Json where
  | null : Json
  | bool (b : Bool) : Json
  | int (n : Int) : Json
  | str (s : String) : Json
  | arr (xs : List Json) : Json
  | obj (kvs : List (String × Json)) : Json

/-- JSON string escaping as done by `serde_json`'s compact serializer. -/
def escapeChar (c : Char) : List Char :=
  if c = '"' then ['\\', '"']
  else if c = '\\' then ['\\', '\\']
  else if c.toNat = 8 then ['\\', 'b']
  else if c.toNat = 9 then ['\\', 't']
  else if c.toNat = 10 then ['\\', 'n']
  else if c.toNat = 12 then ['\\', 'f']
  else if c.toNat = 13 then ['\\', 'r']
  else if c.toNat < 32 then
    ['\\', 'u', '0', '0', hexDigit (c.toNat / 16), hexDigit (c.toNat % 16)]
  else [c]

/-- Escape every character of a string body. -/
def escapeList : List Char → List Char
  | [] => []
  | c :: cs => escapeChar c ++ escapeList cs

/-- A JSON string literal: quoted and escaped. -/
def quoteStr (s : String) : String :=
  String.mk ('"' :: (escapeList s.data ++ ['"']))

/-- Insert a rendered key/value pair in key order (object keys are unique,
so tie order is irrelevant); `serde_json`'s default map is a `BTreeMap`,
which iterates in key order. -/
def insertPair (p : String × String) :
    List (String × String) → List (String × String)
  | [] => [p]
  | q :: qs => if q.1 < p.1 then q :: insertPair p qs else p :: q :: qs

/-- Sort rendered key/value pairs by key. -/
def sortPairs : List (String × String) → List (String × String)
  | [] => []
  | p :: ps => insertPair p (sortPairs ps)

mutual
/-- Compact serialization of a JSON value, as `serde_json::Value::to_string`:
no whitespace, object keys in sorted order. -/
def serializeJson : Json → String
  | .null => "null"
  | .bool b => if b then "true" else "false"
  | .int n => toString n
  | .str s => quoteStr s
  | .arr xs => "[" ++ String.intercalate "," (serializeAll xs) ++ "]"
  | .obj kvs =>
    "\x7b" ++ String.intercalate ","
      ((sortPairs (serializeKVs kvs)).map (fun kv => quoteStr kv.1 ++ ":" ++ kv.2))
    ++ "\x7d"

/-- Serialize every element of an array. -/
def serializeAll : List Json → List String
  | [] => []
  | x :: xs => serializeJson x :: serializeAll xs

/-- Render each object field's value. -/
def serializeKVs : List (String × Json) → List (String × String)
  | [] => []
  | (k, v) :: kvs => (k, serializeJson v) :: serializeKVs kvs
end

/-- `Value::get(key)`: `Some` only on objects holding the key. -/
def jsonGet : Json → String → Option Json
  | .obj kvs, k => (kvs.find? (fun kv => kv.1 == k)).map (fun kv => kv.2)
  | _, _ => none

/-- The `Value` index operator `value[key]`, which yields `Null` when the
key is missing or the value is not an object. -/
def jsonIndex (j : Json) (k : String) : Json := (jsonGet j k).getD .null

/-- `Value::get(index)` on arrays. -/
def jsonAt : Json → Nat → Option Json
  | .arr xs, i => xs.get? i
  | _, _ => none

/-- The keys of an object, in field order. -/
def jsonKeys : Json → Option (List String)
  | .obj kvs => some (kvs.map (fun kv => kv.1))
  | _ => none

/-- `Value::as_array`. -/
def asArr : Json → Option (List Json)
  | .arr xs => some xs
  | _ => none

/-- `Value::as_str`. -/
def asStr : Json → Option String
  | .str s => some s
  | _ => none

/-- `Value::as_i64`: an integer representable as a 64-bit signed value. -/
def asI64 : Json → Option Int
  | .int n =>
    if -9223372036854775808 ≤ n ∧ n < 9223372036854775808 then some n else none
  | _ => none

/-- `Value == &str` (`PartialEq<str>` on `serde_json::Value`): true exactly
when the value is a string with that content. -/
def valueEqStr (j : Json) (s : String) : Bool :=
  match j with
  | .str t => t == s
  | _ => false

/-! ## Snapshot extraction (src/main.rs lines 315-347) -/

/-- Failure modes of the extraction step, per the spec's taxonomy: a
remote-provided error message, a malformed error list, or API shape drift
(any absent or mistyped expected field; in the source these are distinct
panic messages, all fatal). -/
inductive ExtractErr where
  | remoteError (msg : Json) : ExtractErr
  | malformed : ExtractErr
  | shapeMismatch : ExtractErr

/-- The validated product snapshot. -/
structure ProductSnapshot where
  name : String
  price : Int
  stock : Int

/-- Decimal digit value of a character, if any. -/
def digitVal (c : Char) : Option Nat :=
  if 48 ≤ c.toNat ∧ c.toNat ≤ 57 then some (c.toNat - 48) else none

/-- Accumulate decimal digits; fails on any non-digit. -/
def parseDigitsAux : List Char → Nat → Option Nat
  | [], acc => some acc
  | c :: cs, acc =>
    match digitVal c with
    | none => none
    | some d => parseDigitsAux cs (acc * 10 + d)

/-- Parse a non-empty all-digit character list. -/
def parseNatDigits : List Char → Option Nat
  | [] => none
  | cs => parseDigitsAux cs 0

/-- Rust `str::parse::<i64>`: an optional single sign, then one or more
decimal digits, rejecting values outside the `i64` range. -/
def parseI64 (s : String) : Option Int :=
  match s.data with
  | '+' :: rest =>
    (parseNatDigits rest).bind fun n =>
      if n ≤ 9223372036854775807 then some (Int.ofNat n) else none
  | '-' :: rest =>
    (parseNatDigits rest).bind fun n =>
      if n ≤ 9223372036854775808 then some (-(Int.ofNat n)) else none
  | cs =>
    (parseNatDigits cs).bind fun n =>
      if n ≤ 9223372036854775807 then some (Int.ofNat n) else none

/-- `body["data"]["pdpGetLayout"]["components"]`. -/
def componentsOf (body : Json) : Json :=
  jsonIndex (jsonIndex (jsonIndex body "data") "pdpGetLayout") "components"

/-- The sequential `find` over the component list with the in-predicate
`c.get("name").unwrap()`: a component without a `name` field aborts
(shape mismatch), a component whose `name` equals `"product_content"` is
returned, otherwise the scan continues. -/
def findProductContent : List Json → Except ExtractErr (Option Json)
  | [] => .ok none
  | c :: cs =>
    match jsonGet c "name" with
    | none => .error .shapeMismatch
    | some nm =>
      if valueEqStr nm "product_content" then .ok (some c)
      else findProductContent cs

/-- The first data element of the `product_content` component, when the
whole location chain succeeds. -/
def extractData (body : Json) : Option Json :=
  (asArr (componentsOf body)).bind fun comps =>
    match findProductContent comps with
    | .ok (some c) => (jsonGet c "data").bind fun d => jsonAt d 0
    | _ => none

/-- Snapshot extraction (src/main.rs lines 315-347): surface a top-level
error list first, then locate the `product_content` component and project
`name` (string), `price.value` (integer) and `stock.value` (string that
parses as an integer). -/
def extract (body : Json) : Except ExtractErr ProductSnapshot :=
  match jsonGet body "errors" with
  | some errs =>
    match jsonAt errs 0 with
    | none => .error .malformed
    | some e0 =>
      match jsonGet e0 "message" with
      | none => .error .malformed
      | some m => .error (.remoteError m)
  | none =>
    match asArr (componentsOf body) with
    | none => .error .shapeMismatch
    | some comps =>
      match findProductContent comps with
      | .error e => .error e
      | .ok copt =>
        match copt.bind (fun c => (jsonGet c "data").bind fun d => jsonAt d 0) with
        | none => .error .shapeMismatch
        | some pdata =>
          match asStr (jsonIndex pdata "name") with
          | none => .error .shapeMismatch
          | some nm =>
            match asI64 (jsonIndex (jsonIndex pdata "price") "value") with
            | none => .error .shapeMismatch
            | some pr =>
              match (asStr (jsonIndex (jsonIndex pdata "stock") "value")).bind parseI64 with
              | none => .error .shapeMismatch
              | some st => .ok ⟨nm, pr, st⟩

/-! ## URL validation and locator extraction (src/main.rs lines 131-154) -/

/-- A parsed URL, as far as `main` consumes it: the host (if any) and the
path. URL parsing itself is the `url` crate's job and is out of scope. -/
structure Url where
  host : Option String
  path : String

/-- The host test on line 139: the negation of
`is_none_or(|u| u != "tokopedia.com" && u != "www.tokopedia.com")`. -/
def hostOk : Option String → Bool
  | some h => h == "tokopedia.com" || h == "www.tokopedia.com"
  | none => false

/-- Split a character list on a separator character, `str::split` style:
the empty list yields one empty group. -/
def splitOnChar (sep : Char) : List Char → List (List Char)
  | [] => [[]]
  | x :: xs =>
    let r := splitOnChar sep xs
    if x = sep then [] :: r
    else
      match r with
      | [] => [[x]]
      | g :: gs => (x :: g) :: gs

/-- `Url::path_segments`: `None` for a cannot-be-a-base URL (path not
starting with `/`), otherwise the path after the leading `/` split on `/`. -/
def pathSegments (path : String) : Option (List String) :=
  match path.data with
  | '/' :: rest => some ((splitOnChar '/' rest).map (fun g => String.mk g))
  | _ => none

/-- Fatal run outcomes, per the spec's error taxonomy. -/
inductive Fatal where
  | credentialError : Fatal
  | urlParseError : Fatal
  | wrongHost : Fatal
  | noPathSegments : Fatal
  | noShopDomain : Fatal
  | noProductKey : Fatal
  | fetch (e : ExtractErr) : Fatal

/-- Locator extraction from a parsed URL (src/main.rs lines 139-154): host
check, then the first two path segments via the iterator's `next()` calls;
only the *absence* of a next segment is rejected. -/
def locatorOf (u : Url) : Except Fatal (String × String) :=
  if hostOk u.host = false then .error .wrongHost
  else
    match pathSegments u.path with
    | none => .error .noPathSegments
    | some [] => .error .noShopDomain
    | some [_] => .error .noProductKey
    | some (s :: k :: _) => .ok (s, k)

/-- The input errors of the spec's taxonomy (bad URL, unsupported host,
malformed path, bad credential combination). -/
def isInputError : Fatal → Bool
  | .credentialError => true
  | .urlParseError => true
  | .wrongHost => true
  | .noPathSegments => true
  | .noShopDomain => true
  | .noProductKey => true
  | .fetch _ => false

/-! ## Discovery/state publisher (src/main.rs lines 175-269 and 353-514) -/

/-- A discovery-config topic `{haTopic}/sensor/tkpd-{hash}/{ent}/config`. -/
def cfgTopic (haTopic hash ent : String) : String :=
  haTopic ++ "/sensor/tkpd-" ++ hash ++ "/" ++ ent ++ "/config"

/-- A state topic `tkpdprice/{hash}/{ent}`. -/
def stTopic (hash ent : String) : String :=
  "tkpdprice/" ++ hash ++ "/" ++ ent

/-- The shared `device_info` block (src/main.rs lines 353-361). -/
def deviceInfo (shopDomain productName hash productKey version : String) : Json :=
  .obj [("manufacturer", .str shopDomain),
        ("model_id", .str productName),
        ("identifiers", .str ("tkpdprice-" ++ hash)),
        ("serial_number", .str hash),
        ("sw_version", .str version),
        ("configuration_url", .str ("https://tokopedia.com/" ++ shopDomain ++ "/" ++ productKey)),
        ("name", .str productName)]

/-- Discovery-config payload for the name entity (lines 364-382). -/
def nameConfig (dev : Json) (hash : String) : Json :=
  .obj [("device", dev),
        ("platform", .str "sensor"),
        ("force_update", .bool true),
        ("unique_id", .str ("tkpdprice-" ++ hash ++ "-name")),
        ("state_topic", .str (stTopic hash "name")),
        ("name", .str "Name")]

/-- Discovery-config payload for the price entity (lines 385-405). -/
def priceConfig (dev : Json) (hash : String) : Json :=
  .obj [("device", dev),
        ("platform", .str "sensor"),
        ("device_class", .str "monetary"),
        ("unit_of_measurement", .str "IDR"),
        ("force_update", .bool true),
        ("unique_id", .str ("tkpdprice-" ++ hash ++ "-price")),
        ("state_topic", .str (stTopic hash "price")),
        ("name", .str "Price")]

/-- Discovery-config payload for the stock entity (lines 408-429). -/
def stockConfig (dev : Json) (hash : String) : Json :=
  .obj [("device", dev),
        ("platform", .str "sensor"),
        ("force_update", .bool true),
        ("unique_id", .str ("tkpdprice-" ++ hash ++ "-stock")),
        ("state_topic", .str (stTopic hash "stock")),
        ("unit_of_measurement", .str "pcs"),
        ("suggested_display_precision", .int 0),
        ("icon", .str "mdi:numeric"),
        ("name", .str "Stock")]

/-- Discovery-config payload for the updated-at entity (lines 430-451).
Its `unique_id` uses `updatedat` while its topics use `updated-at`. -/
def updatedAtConfig (dev : Json) (hash : String) : Json :=
  .obj [("device", dev),
        ("platform", .str "sensor"),
        ("entity_category", .str "diagnostic"),
        ("device_class", .str "timestamp"),
        ("force_update", .bool false),
        ("enabled_by_default", .bool true),
        ("unique_id", .str ("tkpdprice-" ++ hash ++ "-updatedat")),
        ("state_topic", .str (stTopic hash "updated-at")),
        ("name", .str "Last update")]

/-- Discovery-config payload for the scraper-version entity (lines 452-472).
Its `unique_id` uses `scraperversion` while its topics use
`scraper-version`. -/
def scraperVersionConfig (dev : Json) (hash : String) : Json :=
  .obj [("device", dev),
        ("platform", .str "sensor"),
        ("entity_category", .str "diagnostic"),
        ("force_update", .bool false),
        ("icon", .str "mdi:cogs"),
        ("unique_id", .str ("tkpdprice-" ++ hash ++ "-scraperversion")),
        ("state_topic", .str (stTopic hash "scraper-version")),
        ("name", .str "Scraper version")]

/-- A published message: topic, payload, retain flag. Every publish in the
source uses QoS `AtLeastOnce` and `retain = true`. -/
abbrev Msg := String × String × Bool

/-- The create path's publishes in call order (src/main.rs lines 364-514):
five retained discovery configs, then five retained state payloads (name,
price and stock as decimal strings, the run timestamp, the scraper
version). -/
def createMsgs (hash haTopic shopDomain productKey : String)
    (snap : ProductSnapshot) (now version : String) : List Msg :=
  let dev := deviceInfo shopDomain snap.name hash productKey version
  [(cfgTopic haTopic hash "name", serializeJson (nameConfig dev hash), true),
   (cfgTopic haTopic hash "price", serializeJson (priceConfig dev hash), true),
   (cfgTopic haTopic hash "stock", serializeJson (stockConfig dev hash), true),
   (cfgTopic haTopic hash "updated-at", serializeJson (updatedAtConfig dev hash), true),
   (cfgTopic haTopic hash "scraper-version", serializeJson (scraperVersionConfig dev hash), true),
   (stTopic hash "name", snap.name, true),
   (stTopic hash "price", toString snap.price, true),
   (stTopic hash "stock", toString snap.stock, true),
   (stTopic hash "updated-at", now, true),
   (stTopic hash "scraper-version", version, true)]

/-- The delete path's publishes in call order (src/main.rs lines 175-269):
an empty retained payload to each of the five discovery-config topics and
the five state topics. -/
def deleteMsgs (hash haTopic : String) : List Msg :=
  [(cfgTopic haTopic hash "name", "", true),
   (cfgTopic haTopic hash "price", "", true),
   (cfgTopic haTopic hash "stock", "", true),
   (cfgTopic haTopic hash "updated-at", "", true),
   (cfgTopic haTopic hash "scraper-version", "", true),
   (stTopic hash "name", "", true),
   (stTopic hash "price", "", true),
   (stTopic hash "stock", "", true),
   (stTopic hash "updated-at", "", true),
   (stTopic hash "scraper-version", "", true)]

/-- The broker's retained store after a message batch: the payload of the
last publish to the topic, if any (retained messages are last-write-wins). -/
def finalRetained (msgs : List Msg) (topic : String) : Option String :=
  (msgs.reverse.find? (fun m => m.1 == topic)).map (fun m => m.2.1)

/-! ## A sequential model of one run of `main` -/

/-- `MqttOptions::set_credentials` is called only when a username is
present; the password defaults to the empty string
(src/main.rs lines 95-101). -/
def sessionCredentials (user pw : Option String) : Option (String × String) :=
  user.map (fun un => (un, pw.getD ""))

/-- Externally visible effects of a run, in program order. `connectStart`
is the creation of the MQTT client together with the spawn of the
event-loop thread that drives the broker connection
(src/main.rs lines 104-127). -/
inductive Effect where
  | connectStart (creds : Option (String × String)) : Effect
  | identityDerived (hash : String) : Effect
  | httpRequest : Effect
  | publish (topic : String) (payload : String) (retain : Bool) : Effect
  | disconnect : Effect
  | joinWorker : Effect

/-- One run of `main`, sequentially: the effect trace in program order and
the fatal outcome, if any. `parsedUrl` is the result of the third-party URL
parse (`none` = parse failure), `response` the decoded HTTP response body,
`now` the formatted current timestamp and `version` the crate version. -/
def runModel (user pw : Option String) (parsedUrl : Option Url)
    (haTopic : String) (unretain : Bool) (response : Json)
    (now version : String) : List Effect × Option Fatal :=
  if pw.isSome && user.isNone then ([], some .credentialError)
  else
    let creds := sessionCredentials user pw
    match parsedUrl with
    | none => ([Effect.connectStart creds], some .urlParseError)
    | some u =>
      match locatorOf u with
      | .error f => ([Effect.connectStart creds], some f)
      | .ok (shopDomain, productKey) =>
        let hash := derive shopDomain productKey
        if unretain then
          (Effect.connectStart creds :: Effect.identityDerived hash ::
            ((deleteMsgs hash haTopic).map (fun m => Effect.publish m.1 m.2.1 m.2.2)
              ++ [Effect.disconnect, Effect.joinWorker]), none)
        else
          match extract response with
          | .error e =>
            ([Effect.connectStart creds, Effect.identityDerived hash,
              Effect.httpRequest], some (.fetch e))
          | .ok snap =>
            (Effect.connectStart creds :: Effect.identityDerived hash ::
              Effect.httpRequest ::
              ((createMsgs hash haTopic shopDomain productKey snap now version).map
                  (fun m => Effect.publish m.1 m.2.1 m.2.2)
                ++ [Effect.disconnect, Effect.joinWorker]), none)

/-! ## Supporting lemmas -/

theorem hexRender_length (bs : List Nat) : (hexRender bs).length = 2 * bs.length := by
  induction bs with
  | nil => rfl
  | cons b bs ih =>
    simp only [hexRender, hexByte, List.length_append, List.length_cons,
      List.length_nil, ih]
    omega

theorem mem_hexRender {c : Char} {bs : List Nat} (h : c ∈ hexRender bs) :
    ∃ b ∈ bs, c = hexDigit (b / 16) ∨ c = hexDigit (b % 16) := by
  induction bs with
  | nil => simp [hexRender] at h
  | cons b bs ih =>
    simp only [hexRender, hexByte, List.mem_append, List.mem_cons,
      List.not_mem_nil, or_false] at h
    rcases h with (rfl | rfl) | h
    · exact ⟨b, List.mem_cons_self b bs, Or.inl rfl⟩
    · exact ⟨b, List.mem_cons_self b bs, Or.inr rfl⟩
    · obtain ⟨b2, hb2, hc⟩ := ih h
      exact ⟨b2, List.mem_cons_of_mem b hb2, hc⟩

theorem mem_leBytes {b : Nat} {ws : List Nat} (h : b ∈ leBytes ws) : b < 256 := by
  induction ws with
  | nil => simp [leBytes] at h
  | cons w ws ih =>
    simp only [leBytes, List.mem_cons] at h
    rcases h with rfl | rfl | rfl | rfl | h
    · exact Nat.mod_lt _ (by norm_num)
    · exact Nat.mod_lt _ (by norm_num)
    · exact Nat.mod_lt _ (by norm_num)
    · exact Nat.mod_lt _ (by norm_num)
    · exact ih h

theorem leBytes_length (ws : List Nat) : (leBytes ws).length = 4 * ws.length := by
  induction ws with
  | nil => rfl
  | cons w ws ih =>
    simp only [leBytes, List.length_cons, ih]
    omega

theorem compress_length (h block : List Nat) (t : Nat) (last : Bool) :
    (compress h block t last).length = 8 := by
  simp [compress]

theorem blake2sLoop_length (bs : List (List Nat)) :
    ∀ h t, h.length = 8 → (blake2sLoop h t bs).length = 8 := by
  induction bs with
  | nil => intro h t hh; simpa [blake2sLoop] using hh
  | cons b bs ih =>
    intro h t hh
    cases bs with
    | nil => simpa [blake2sLoop] using compress_length h b (t + b.length) true
    | cons b2 bs2 =>
      simpa [blake2sLoop] using
        ih (compress h b (t + 64) false) (t + 64) (compress_length h b (t + 64) false)

theorem blake2sVar_length (input : List Nat) : (blake2sVar 4 input).length = 4 := by
  have h8 : (blake2sLoop (initH 4) 0 (chunks input)).length = 8 :=
    blake2sLoop_length _ _ _ rfl
  simp only [blake2sVar, List.length_take, leBytes_length, h8]
  omega

theorem blake2sVar_bytes_lt {b : Nat} {input : List Nat}
    (h : b ∈ blake2sVar 4 input) : b < 256 :=
  mem_leBytes (List.take_subset _ _ h)

theorem hexDigit_lower {n : Nat} (h : n < 16) : isLowerHexDigit (hexDigit n) = true := by
  have hall : ∀ m, m < 16 → isLowerHexDigit (hexDigit m) = true := by decide
  exact hall n h

/-- Claim C1: identity derivation is a pure deterministic function. For all
input strings (in particular non-empty ones), `derive` equals the 4-byte
variable-output BLAKE2s digest of the shop domain's bytes followed by the
product key's bytes with no separator, rendered with no prefix; the
rendering is exactly 8 characters, all lowercase hex digits (each byte
zero-padded to two digits); and equal inputs always yield the identical
identity. -/
theorem c1_derive_pure_deterministic (shopDomain productKey : String)
    (_hs : shopDomain ≠ "") (_hk : productKey ≠ "") :
    derive shopDomain productKey
      = hexSliceFmt false (blake2sVar 4 (strBytes shopDomain ++ strBytes productKey))
    ∧ (derive shopDomain productKey).length = 8
    ∧ (derive shopDomain productKey).data.all isLowerHexDigit = true
    ∧ derive shopDomain productKey = derive shopDomain productKey := by
  have heq : derive shopDomain productKey
      = hexSliceFmt false (blake2sVar 4 (strBytes shopDomain ++ strBytes productKey)) := by
    simp [derive, blake2sFinalize, blake2sUpdate, blake2sInit]
  refine ⟨heq, ?_, ?_, rfl⟩
  · rw [heq]
    show (String.mk ([] ++ hexRender (blake2sVar 4 _))).length = 8
    simp only [List.nil_append]
    show (hexRender (blake2sVar 4 _)).length = 8
    rw [hexRender_length, blake2sVar_length]
  · rw [heq]
    rw [List.all_eq_true]
    intro c hc
    have hc2 : c ∈ hexRender (blake2sVar 4 (strBytes shopDomain ++ strBytes productKey)) := by
      simpa [hexSliceFmt] using hc
    obtain ⟨b, hb, hcd⟩ := mem_hexRender hc2
    have hblt : b < 256 := blake2sVar_bytes_lt hb
    rcases hcd with rfl | rfl
    · exact hexDigit_lower (by omega)
    · exact hexDigit_lower (by omega)

/-- Witness for C1 at the concrete locator `("acme-store", "widget-123")`. -/
theorem c1_derive_pure_deterministic_witness :
    ("acme-store" : String) ≠ "" ∧ ("widget-123" : String) ≠ ""
    ∧ (derive "acme-store" "widget-123"
        = hexSliceFmt false (blake2sVar 4 (strBytes "acme-store" ++ strBytes "widget-123"))
      ∧ (derive "acme-store" "widget-123").length = 8
      ∧ (derive "acme-store" "widget-123").data.all isLowerHexDigit = true
      ∧ derive "acme-store" "widget-123" = derive "acme-store" "widget-123") :=
  ⟨by decide, by decide,
    c1_derive_pure_deterministic "acme-store" "widget-123" (by decide) (by decide)⟩

/-- Claim C2: the delete path touches exactly the topics of the create path
for the same identity and discovery-topic prefix — the five discovery-config
topics plus the five state topics — independent of the snapshot content, and
publishes an empty retained payload to each of them. -/
theorem c2_erase_covers_create (hash haTopic shopDomain productKey : String)
    (snap : ProductSnapshot) (now version : String) :
    (createMsgs hash haTopic shopDomain productKey snap now version).map (fun m => m.1)
      = (deleteMsgs hash haTopic).map (fun m => m.1)
    ∧ (deleteMsgs hash haTopic).map (fun m => m.1)
      = [cfgTopic haTopic hash "name", cfgTopic haTopic hash "price",
         cfgTopic haTopic hash "stock", cfgTopic haTopic hash "updated-at",
         cfgTopic haTopic hash "scraper-version",
         stTopic hash "name", stTopic hash "price", stTopic hash "stock",
         stTopic hash "updated-at", stTopic hash "scraper-version"]
    ∧ (deleteMsgs hash haTopic).all (fun m => m.2.1 == "" && m.2.2) = true :=
  ⟨rfl, rfl, rfl⟩

/-- Claim C4 (code bug evidence): for the URL
`https://www.tokopedia.com//` — host `www.tokopedia.com`, path `//` — the
locator extraction accepts two *empty* segments and the delete run proceeds
to completion instead of aborting: only the absence of a next path segment
is rejected, not emptiness. -/
theorem c4_empty_segments_accepted :
    locatorOf ⟨some "www.tokopedia.com", "//"⟩ = .ok ("", "")
    ∧ (runModel none none (some ⟨some "www.tokopedia.com", "//"⟩)
        "homeassistant" true Json.null "now" "ver").2 = none :=
  ⟨rfl, rfl⟩

theorem finalRetained_append_self (l : List Msg) (t : String) :
    finalRetained (l ++ l) t = finalRetained l t := by
  unfold finalRetained
  rw [List.reverse_append, List.find?_append]
  cases h : (l.reverse.find? fun m => m.1 == t) with
  | none => simp [h]
  | some m => simp [h]

/-- Claim C6 (amended): issuing the create path twice with the same identity,
locator, snapshot, run timestamp and scraper version produces the same final
retained payload on every topic as issuing it once — each topic's final
retained payload is a deterministic function of identity, locator, snapshot,
run timestamp and scraper version — and the second run creates no new
topics. -/
theorem c6_idempotent_create (hash haTopic shopDomain productKey : String)
    (snap : ProductSnapshot) (now version : String) (topic : String) :
    finalRetained
        (createMsgs hash haTopic shopDomain productKey snap now version
          ++ createMsgs hash haTopic shopDomain productKey snap now version) topic
      = finalRetained (createMsgs hash haTopic shopDomain productKey snap now version) topic
    ∧ ((topic ∈ (createMsgs hash haTopic shopDomain productKey snap now version
          ++ createMsgs hash haTopic shopDomain productKey snap now version).map (fun m => m.1))
        ↔ topic ∈ (createMsgs hash haTopic shopDomain productKey snap now version).map
            (fun m => m.1)) := by
  refine ⟨finalRetained_append_self _ _, ?_⟩
  simp [List.mem_append]

/-- Claim C6 counterexample: the final retained payload on the updated-at
state topic is *not* a function of identity, locator and snapshot alone — two
create runs with identical identity, locator and snapshot but different run
timestamps leave different final payloads, so a second run does not reproduce
the first run's final state. -/
theorem c6_counterexample :
    finalRetained
        (createMsgs "a1b2c3d4" "homeassistant" "acme-store" "widget-123"
            ⟨"Widget", 15000, 42⟩ "2024-01-01T00:00:00+00:00" "0.1.0"
          ++ createMsgs "a1b2c3d4" "homeassistant" "acme-store" "widget-123"
            ⟨"Widget", 15000, 42⟩ "2024-01-02T00:00:00+00:00" "0.1.0")
        (stTopic "a1b2c3d4" "updated-at")
      = some "2024-01-02T00:00:00+00:00"
    ∧ finalRetained
        (createMsgs "a1b2c3d4" "homeassistant" "acme-store" "widget-123"
          ⟨"Widget", 15000, 42⟩ "2024-01-01T00:00:00+00:00" "0.1.0")
        (stTopic "a1b2c3d4" "updated-at")
      = some "2024-01-01T00:00:00+00:00"
    ∧ some "2024-01-01T00:00:00+00:00" ≠ some "2024-01-02T00:00:00+00:00" :=
  ⟨rfl, rfl, by decide⟩

/-- Claim C7 counterexample: for the updated-at entity the config topic and
the state topic use the segment `updated-at`, but the `unique_id` embedded in
the payload is `tkpdprice-{hash}-updatedat` — not `tkpdprice-{hash}-updated-at`
as the claimed uniform `tkpdprice-{hash}-{entity}` scheme would require. -/
theorem c7_counterexample :
    jsonGet (updatedAtConfig Json.null "a1b2c3d4") "unique_id"
      = some (Json.str "tkpdprice-a1b2c3d4-updatedat")
    ∧ jsonGet (updatedAtConfig Json.null "a1b2c3d4") "unique_id"
      ≠ some (Json.str "tkpdprice-a1b2c3d4-updated-at") := by
  refine ⟨rfl, ?_⟩
  intro h
  rw [show jsonGet (updatedAtConfig Json.null "a1b2c3d4") "unique_id"
        = some (Json.str "tkpdprice-a1b2c3d4-updatedat") from rfl] at h
  injection h with h1
  injection h1 with h2
  exact absurd h2 (by decide)

/-- Claim C7 (amended): each discovery-config payload embeds a `unique_id`
`tkpdprice-{hash}-{tag}` and a `state_topic` `tkpdprice/{hash}/{entity}`,
where for name, price and stock the tag equals the entity segment used in the
config topic `{prefix}/sensor/tkpd-{hash}/{entity}/config` and state topic,
while for updated-at and scraper-version the topics use the hyphenated
entity segment but the tag is the unhyphenated `updatedat` resp.
`scraperversion`. -/
theorem c7_unique_ids (dev : Json) (hash haTopic shopDomain productKey : String)
    (snap : ProductSnapshot) (now version : String) :
    (jsonGet (nameConfig dev hash) "unique_id"
        = some (.str ("tkpdprice-" ++ hash ++ "-name"))
      ∧ jsonGet (nameConfig dev hash) "state_topic" = some (.str (stTopic hash "name")))
    ∧ (jsonGet (priceConfig dev hash) "unique_id"
        = some (.str ("tkpdprice-" ++ hash ++ "-price"))
      ∧ jsonGet (priceConfig dev hash) "state_topic" = some (.str (stTopic hash "price")))
    ∧ (jsonGet (stockConfig dev hash) "unique_id"
        = some (.str ("tkpdprice-" ++ hash ++ "-stock"))
      ∧ jsonGet (stockConfig dev hash) "state_topic" = some (.str (stTopic hash "stock")))
    ∧ (jsonGet (updatedAtConfig dev hash) "unique_id"
        = some (.str ("tkpdprice-" ++ hash ++ "-updatedat"))
      ∧ jsonGet (updatedAtConfig dev hash) "state_topic"
        = some (.str (stTopic hash "updated-at")))
    ∧ (jsonGet (scraperVersionConfig dev hash) "unique_id"
        = some (.str ("tkpdprice-" ++ hash ++ "-scraperversion"))
      ∧ jsonGet (scraperVersionConfig dev hash) "state_topic"
        = some (.str (stTopic hash "scraper-version")))
    ∧ (createMsgs hash haTopic shopDomain productKey snap now version).map (fun m => m.1)
      = [cfgTopic haTopic hash "name", cfgTopic haTopic hash "price",
         cfgTopic haTopic hash "stock", cfgTopic haTopic hash "updated-at",
         cfgTopic haTopic hash "scraper-version",
         stTopic hash "name", stTopic hash "price", stTopic hash "stock",
         stTopic hash "updated-at", stTopic hash "scraper-version"] :=
  ⟨⟨rfl, rfl⟩, ⟨rfl, rfl⟩, ⟨rfl, rfl⟩, ⟨rfl, rfl⟩, ⟨rfl, rfl⟩, rfl⟩

/-- Claim C8 counterexample: the device block holds a `model_id` field and no
`model` field, and its `identifiers` field is the plain string
`tkpdprice-{hash}`, not a list containing the device identity. -/
theorem c8_counterexample :
    jsonGet (deviceInfo "acme-store" "Widget" "a1b2c3d4" "widget-123" "0.1.0") "model"
      = none
    ∧ jsonGet (deviceInfo "acme-store" "Widget" "a1b2c3d4" "widget-123" "0.1.0") "identifiers"
      = some (Json.str "tkpdprice-a1b2c3d4") :=
  ⟨rfl, rfl⟩

/-- Claim C8 (amended): every one of the five discovery-config payloads of a
single create run embeds the *same* device-descriptor value — hence its
serialized bytes are identical in all five payloads — and that block contains
exactly the fields manufacturer, model_id, identifiers (a single string
`tkpdprice-{hash}`), serial_number, sw_version, configuration_url and name. -/
theorem c8_device_descriptor (shopDomain productName hash productKey version : String) :
    (jsonGet (nameConfig (deviceInfo shopDomain productName hash productKey version) hash)
        "device" = some (deviceInfo shopDomain productName hash productKey version)
      ∧ jsonGet (priceConfig (deviceInfo shopDomain productName hash productKey version) hash)
        "device" = some (deviceInfo shopDomain productName hash productKey version)
      ∧ jsonGet (stockConfig (deviceInfo shopDomain productName hash productKey version) hash)
        "device" = some (deviceInfo shopDomain productName hash productKey version)
      ∧ jsonGet (updatedAtConfig (deviceInfo shopDomain productName hash productKey version) hash)
        "device" = some (deviceInfo shopDomain productName hash productKey version)
      ∧ jsonGet (scraperVersionConfig (deviceInfo shopDomain productName hash productKey version) hash)
        "device" = some (deviceInfo shopDomain productName hash productKey version))
    ∧ ([nameConfig (deviceInfo shopDomain productName hash productKey version) hash,
        priceConfig (deviceInfo shopDomain productName hash productKey version) hash,
        stockConfig (deviceInfo shopDomain productName hash productKey version) hash,
        updatedAtConfig (deviceInfo shopDomain productName hash productKey version) hash,
        scraperVersionConfig (deviceInfo shopDomain productName hash productKey version) hash].map
          (fun p => (jsonGet p "device").map serializeJson))
      = List.replicate 5 (some (serializeJson (deviceInfo shopDomain productName hash productKey version)))
    ∧ jsonKeys (deviceInfo shopDomain productName hash productKey version)
      = some ["manufacturer", "model_id", "identifiers", "serial_number",
              "sw_version", "configuration_url", "name"]
    ∧ jsonGet (deviceInfo shopDomain productName hash productKey version) "identifiers"
      = some (.str ("tkpdprice-" ++ hash)) :=
  ⟨⟨rfl, rfl, rfl, rfl, rfl⟩, rfl, rfl, rfl⟩

theorem locatorOf_error_cases (u : Url) (f : Fatal) (h : locatorOf u = .error f) :
    f = .wrongHost ∨ f = .noPathSegments ∨ f = .noShopDomain ∨ f = .noProductKey := by
  unfold locatorOf at h
  split at h
  · injection h with h1
    exact Or.inl h1.symm
  · split at h
    · injection h with h1
      exact Or.inr (Or.inl h1.symm)
    · injection h with h1
      exact Or.inr (Or.inr (Or.inl h1.symm))
    · injection h with h1
      exact Or.inr (Or.inr (Or.inr h1.symm))
    · exact absurd h (by simp)

/-- Classifier for effects that touch the network payload path: the HTTP
request and the publishes. -/
def networkEffect : Effect → Bool
  | .httpRequest => true
  | .publish _ _ _ => true
  | _ => false


theorem runModel_head_not_cred (user pw : Option String) (pu : Option Url)
    (haTopic : String) (unretain : Bool) (resp : Json) (now version : String)
    (tr : List Effect) (o : Option Fatal)
    (h : runModel user pw pu haTopic unretain resp now version = (tr, o))
    (hcb : (pw.isSome && user.isNone) = false) :
    tr.head? = some (Effect.connectStart (sessionCredentials user pw))
    ∧ o ≠ some .credentialError := by
  unfold runModel at h
  rw [hcb] at h
  simp only [Bool.false_eq_true, if_false] at h
  split at h
  · injection h with h1 h2
    rw [← h1, ← h2]
    exact ⟨rfl, by intro hc; injection hc with h3; exact Fatal.noConfusion h3⟩
  · split at h
    · rename_i u x f2 hloc
      injection h with h1 h2
      rw [← h1, ← h2]
      refine ⟨rfl, ?_⟩
      intro hc
      injection hc with h3
      rcases locatorOf_error_cases u f2 hloc with rfl | rfl | rfl | rfl <;>
        exact Fatal.noConfusion h3
    · split at h
      · injection h with h1 h2
        rw [← h1, ← h2]
        exact ⟨rfl, by intro hc; exact Option.noConfusion hc⟩
      · split at h
        · injection h with h1 h2
          rw [← h1, ← h2]
          exact ⟨rfl, by intro hc; injection hc with h3; exact Fatal.noConfusion h3⟩
        · injection h with h1 h2
          rw [← h1, ← h2]
          exact ⟨rfl, by intro hc; exact Option.noConfusion hc⟩

theorem runModel_input_error_trace (user pw : Option String) (pu : Option Url)
    (haTopic : String) (unretain : Bool) (resp : Json) (now version : String)
    (tr : List Effect) (f : Fatal)
    (h : runModel user pw pu haTopic unretain resp now version = (tr, some f))
    (hf : isInputError f = true) :
    (tr = [] ∧ f = .credentialError)
    ∨ (tr = [Effect.connectStart (sessionCredentials user pw)]
        ∧ f ≠ .credentialError) := by
  unfold runModel at h
  cases hcb : (pw.isSome && user.isNone) with
  | true =>
    rw [hcb] at h
    simp only [if_true] at h
    injection h with h1 h2
    injection h2 with h3
    exact Or.inl ⟨h1.symm, h3.symm⟩
  | false =>
    rw [hcb] at h
    simp only [Bool.false_eq_true, if_false] at h
    split at h
    · injection h with h1 h2
      injection h2 with h3
      refine Or.inr ⟨h1.symm, ?_⟩
      rw [← h3]
      intro hc
      exact Fatal.noConfusion hc
    · split at h
      · rename_i u x f2 hloc
        injection h with h1 h2
        injection h2 with h3
        refine Or.inr ⟨h1.symm, ?_⟩
        rw [← h3]
        rcases locatorOf_error_cases u f2 hloc with rfl | rfl | rfl | rfl <;>
          (intro hc; exact Fatal.noConfusion hc)
      · split at h
        · injection h with h1 h2
          exact absurd h2 (by simp)
        · split at h
          · rename_i e hex
            injection h with h1 h2
            injection h2 with h3
            rw [← h3] at hf
            simp [isInputError] at hf
          · injection h with h1 h2
            exact absurd h2 (by simp)

/-- Claim C9 (amended): in every run that fails with an input error, no HTTP
request and no publish occurs before the failure, and a credential error is
surfaced before anything at all — but the MQTT client and its connecting
event-loop thread are started before URL validation, so URL/host/path errors
are preceded by the connection start (see the counterexample). -/
theorem c9_input_error_before_network (user pw : Option String) (pu : Option Url)
    (haTopic : String) (unretain : Bool) (resp : Json) (now version : String)
    (tr : List Effect) (f : Fatal)
    (h : runModel user pw pu haTopic unretain resp now version = (tr, some f))
    (hf : isInputError f = true) :
    tr.all (fun e => !networkEffect e) = true
    ∧ (f = .credentialError → tr = []) := by
  rcases runModel_input_error_trace user pw pu haTopic unretain resp now version tr f h hf with
    ⟨rfl, rfl⟩ | ⟨rfl, hne⟩
  · exact ⟨rfl, fun _ => rfl⟩
  · exact ⟨rfl, fun hc => absurd hc hne⟩

/-- Witness for C9 (amended) at a concrete failing configuration: a password
without a username fails with the credential error, with an empty trace. -/
theorem c9_input_error_before_network_witness :
    ([] : List Effect).all (fun e => !networkEffect e) = true
    ∧ (Fatal.credentialError = .credentialError → ([] : List Effect) = []) :=
  c9_input_error_before_network none (some "pw") none "homeassistant" false
    Json.null "now" "ver" [] Fatal.credentialError rfl rfl

/-- Claim C9 counterexample: a run failing with the wrong-host input error —
`m.tokopedia.com` is not an accepted host — has already created the MQTT
client and spawned the connection-driving event-loop thread before the
failure: network activity towards the broker begins before the input error
is surfaced. -/
theorem c9_counterexample :
    runModel none none (some ⟨some "m.tokopedia.com", "/a/b"⟩)
        "homeassistant" false Json.null "now" "ver"
      = ([Effect.connectStart none], some Fatal.wrongHost)
    ∧ isInputError Fatal.wrongHost = true
    ∧ Effect.connectStart none ∈ [Effect.connectStart none] :=
  ⟨rfl, rfl, List.mem_singleton.mpr rfl⟩

/-- Claim C10: a parsed URL whose host is not exactly `tokopedia.com` or
`www.tokopedia.com` (any other subdomain, or an absent host) makes the run
abort with the fatal wrong-URL error — its whole trace is the connection
start, so it never reaches identity derivation, the HTTP fetch or any
publish — and exactly those two host strings pass the host check. -/
theorem c10_host_check (u : Url) (user pw : Option String) (haTopic : String)
    (unretain : Bool) (resp : Json) (now version : String) :
    ((pw.isSome && user.isNone) = false → hostOk u.host = false →
      runModel user pw (some u) haTopic unretain resp now version
        = ([Effect.connectStart (sessionCredentials user pw)], some .wrongHost))
    ∧ (hostOk u.host = true
        ↔ (u.host = some "tokopedia.com" ∨ u.host = some "www.tokopedia.com")) := by
  constructor
  · intro hcred hhost
    have hloc : locatorOf u = .error .wrongHost := by
      unfold locatorOf
      rw [hhost]
      simp
    unfold runModel
    rw [hcred]
    simp only [Bool.false_eq_true, if_false, hloc]
  · cases hh : u.host with
    | none => simp [hostOk]
    | some s => simp [hostOk]

/-- Witness for C10 at the concrete host `m.tokopedia.com`. -/
theorem c10_host_check_witness :
    runModel none none (some ⟨some "m.tokopedia.com", "/a/b"⟩)
        "homeassistant" false Json.null "now" "ver"
      = ([Effect.connectStart none], some Fatal.wrongHost)
    ∧ (hostOk (some "m.tokopedia.com") = true
        ↔ (some "m.tokopedia.com" = some "tokopedia.com"
            ∨ (some "m.tokopedia.com" : Option String) = some "www.tokopedia.com")) :=
  ⟨(c10_host_check ⟨some "m.tokopedia.com", "/a/b"⟩ none none "homeassistant" false
      Json.null "now" "ver").1 rfl rfl,
    (c10_host_check ⟨some "m.tokopedia.com", "/a/b"⟩ none none "homeassistant" false
      Json.null "now" "ver").2⟩

/-- Claim C5: a password supplied without a username is a fatal configuration
error at startup, before any connection attempt (the trace is empty); a
username supplied without a password proceeds — the session credentials are
the supplied username with the empty password, the run starts the connection
with exactly those credentials, and it does not fail with the credential
error. -/
theorem c5_credential_rule (user pw : Option String) (pu : Option Url)
    (haTopic : String) (unretain : Bool) (resp : Json) (now version : String) :
    (pw.isSome = true → user = none →
      runModel user pw pu haTopic unretain resp now version = ([], some .credentialError))
    ∧ (∀ un, user = some un → pw = none →
        sessionCredentials user pw = some (un, "")
        ∧ (runModel user pw pu haTopic unretain resp now version).1.head?
            = some (Effect.connectStart (some (un, "")))
        ∧ (runModel user pw pu haTopic unretain resp now version).2
            ≠ some .credentialError) := by
  constructor
  · intro hp hu
    subst hu
    unfold runModel
    rw [show (pw.isSome && (none : Option String).isNone) = true by simp [hp]]
    simp only [if_true]
  · intro un hu hw
    subst hu
    subst hw
    have hkey := runModel_head_not_cred (some un) none pu haTopic unretain resp now version
      (runModel (some un) none pu haTopic unretain resp now version).1
      (runModel (some un) none pu haTopic unretain resp now version).2
      rfl (by simp)
    exact ⟨rfl, hkey.1, hkey.2⟩

/-- Witness for C5: concrete configurations for both halves of the rule —
password-only fails before anything, username-only proceeds with an empty
password. -/
theorem c5_credential_rule_witness :
    runModel none (some "hunter2") none "homeassistant" false Json.null "now" "ver"
      = ([], some .credentialError)
    ∧ sessionCredentials (some "alice") none = some ("alice", "")
    ∧ (runModel (some "alice") none none "homeassistant" false Json.null "now" "ver").1.head?
        = some (Effect.connectStart (some ("alice", "")))
    ∧ (runModel (some "alice") none none "homeassistant" false Json.null "now" "ver").2
        ≠ some .credentialError :=
  ⟨(c5_credential_rule none (some "hunter2") none "homeassistant" false
      Json.null "now" "ver").1 rfl rfl,
    (c5_credential_rule (some "alice") none none "homeassistant" false
      Json.null "now" "ver").2 "alice" rfl rfl⟩

theorem findPC_all_misses (comps : List Json)
    (hall : ∀ c ∈ comps, ∃ nm, jsonGet c "name" = some nm
      ∧ valueEqStr nm "product_content" = false) :
    findProductContent comps = .ok none := by
  induction comps with
  | nil => rfl
  | cons c cs ih =>
    obtain ⟨nm, hnm, hne⟩ := hall c (List.mem_cons_self c cs)
    have hrest := ih (fun c2 h2 => hall c2 (List.mem_cons_of_mem c h2))
    simp only [findProductContent, hnm, hne, Bool.false_eq_true, if_false]
    exact hrest

/-- Claim C3: the snapshot extraction follows the specified case analysis.
A present top-level `errors` value fails with the first element's `message`
(and fails as malformed when the first element or its `message` is absent);
with no `errors`, a missing `product_content` component, or any absent or
mistyped projected field (`name` string, `price.value` integer,
`stock.value` integer-parsing string) is a shape-mismatch failure; and a
successful extraction returns a snapshot whose three fields are exactly the
validated projections — never a partially-populated snapshot. -/
theorem c3_extract_case_analysis (body : Json) :
    (∀ errs e0 m, jsonGet body "errors" = some errs → jsonAt errs 0 = some e0 →
      jsonGet e0 "message" = some m → extract body = .error (.remoteError m))
    ∧ (∀ errs, jsonGet body "errors" = some errs → jsonAt errs 0 = none →
        extract body = .error .malformed)
    ∧ (∀ errs e0, jsonGet body "errors" = some errs → jsonAt errs 0 = some e0 →
        jsonGet e0 "message" = none → extract body = .error .malformed)
    ∧ (jsonGet body "errors" = none → ∀ comps, asArr (componentsOf body) = some comps →
        (∀ c ∈ comps, ∃ nm, jsonGet c "name" = some nm
          ∧ valueEqStr nm "product_content" = false) →
        extract body = .error .shapeMismatch)
    ∧ (jsonGet body "errors" = none → ∀ pdata, extractData body = some pdata →
        (asStr (jsonIndex pdata "name") = none
          ∨ asI64 (jsonIndex (jsonIndex pdata "price") "value") = none
          ∨ (asStr (jsonIndex (jsonIndex pdata "stock") "value")).bind parseI64 = none) →
        extract body = .error .shapeMismatch)
    ∧ (∀ snap, extract body = .ok snap →
        jsonGet body "errors" = none
        ∧ (extractData body).bind (fun d => asStr (jsonIndex d "name")) = some snap.name
        ∧ (extractData body).bind
            (fun d => asI64 (jsonIndex (jsonIndex d "price") "value")) = some snap.price
        ∧ (extractData body).bind
            (fun d => (asStr (jsonIndex (jsonIndex d "stock") "value")).bind parseI64)
          = some snap.stock) := by
  refine ⟨?_, ?_, ?_, ?_, ?_, ?_⟩
  · intro errs e0 m h1 h2 h3
    simp only [extract, h1, h2, h3]
  · intro errs h1 h2
    simp only [extract, h1, h2]
  · intro errs e0 h1 h2 h3
    simp only [extract, h1, h2, h3]
  · intro he comps hcomps hall
    have hfind := findPC_all_misses comps hall
    simp only [extract, he, hcomps, hfind, Option.none_bind]
  · intro he pdata hdata hbad
    unfold extractData at hdata
    cases hA : asArr (componentsOf body) with
    | none => rw [hA] at hdata; exact absurd hdata (by simp)
    | some comps =>
      rw [hA] at hdata
      simp only [Option.some_bind] at hdata
      cases hF : findProductContent comps with
      | error e => simp [hF] at hdata
      | ok copt =>
        cases copt with
        | none => simp [hF] at hdata
        | some c =>
          rw [hF] at hdata
          simp only [] at hdata
          rcases hbad with hN | hP | hS
          · simp only [extract, he, hA, hF, Option.some_bind, hdata, hN]
          · cases hN : asStr (jsonIndex pdata "name") with
            | none => simp only [extract, he, hA, hF, Option.some_bind, hdata, hN]
            | some nm =>
              simp only [extract, he, hA, hF, Option.some_bind, hdata, hN, hP]
          · cases hN : asStr (jsonIndex pdata "name") with
            | none => simp only [extract, he, hA, hF, Option.some_bind, hdata, hN]
            | some nm =>
              cases hP : asI64 (jsonIndex (jsonIndex pdata "price") "value") with
              | none =>
                simp only [extract, he, hA, hF, Option.some_bind, hdata, hN, hP]
              | some pr =>
                simp only [extract, he, hA, hF, Option.some_bind, hdata, hN, hP, hS]
  · intro snap hok
    obtain ⟨sn, sp, ss⟩ := snap
    unfold extract at hok
    cases hE : jsonGet body "errors" with
    | some errs =>
      rw [hE] at hok
      simp only [] at hok
      split at hok
      · exact absurd hok (by simp)
      · split at hok
        · exact absurd hok (by simp)
        · exact absurd hok (by simp)
    | none =>
      rw [hE] at hok
      cases hA : asArr (componentsOf body) with
      | none => simp [hA] at hok
      | some comps =>
        cases hF : findProductContent comps with
        | error e => simp [hA, hF] at hok
        | ok copt =>
          cases copt with
          | none => simp [hA, hF] at hok
          | some c =>
            cases hD : (jsonGet c "data").bind (fun d => jsonAt d 0) with
            | none => simp [hA, hF, hD] at hok
            | some pdata =>
              cases hN : asStr (jsonIndex pdata "name") with
              | none => simp [hA, hF, hD, hN] at hok
              | some nm =>
                cases hP : asI64 (jsonIndex (jsonIndex pdata "price") "value") with
                | none => simp [hA, hF, hD, hN, hP] at hok
                | some pr =>
                  cases hS : (asStr (jsonIndex (jsonIndex pdata "stock") "value")).bind
                      parseI64 with
                  | none => simp [hA, hF, hD, hN, hP, hS] at hok
                  | some st =>
                    simp only [hA, hF, hD, hN, hP, hS, Option.some_bind,
                      Except.ok.injEq, ProductSnapshot.mk.injEq] at hok
                    obtain ⟨hn, hpp, hss⟩ := hok
                    have hED : extractData body = some pdata := by
                      simp [extractData, hA, hF, hD]
                    subst hn
                    subst hpp
                    subst hss
                    exact ⟨rfl, by simp [hED, hN], by simp [hED, hP], by simp [hED, hS]⟩

/-- A response with a top-level error list carrying a message. -/
def c3ResponseErr : Json :=
  .obj [("errors", .arr [.obj [("message", .str "boom")]])]

/-- A response with a present but empty error list. -/
def c3ResponseEmptyErrs : Json := .obj [("errors", .arr [])]

/-- A response whose first error has no message field. -/
def c3ResponseNoMsg : Json := .obj [("errors", .arr [.obj [("code", .int 1)]])]

/-- A response whose component list has no `product_content` component. -/
def c3ResponseNoContent : Json :=
  .obj [("data", .obj [("pdpGetLayout", .obj [("components",
    .arr [.obj [("name", .str "product_detail")]])])])]

/-- A product-content data element whose `name` field is mistyped. -/
def c3BadData : Json :=
  .obj [("name", .int 7), ("price", .obj [("value", .int 15000)]),
        ("stock", .obj [("value", .str "42")])]

/-- A response whose product-content `name` field is mistyped. -/
def c3ResponseBadName : Json :=
  .obj [("data", .obj [("pdpGetLayout", .obj [("components",
    .arr [.obj [("name", .str "product_content"), ("data", .arr [c3BadData])]])])])]

/-- A well-formed response for the snapshot
`{name: "Widget", price: 15000, stock: 42}`. -/
def c3ResponseGood : Json :=
  .obj [("data", .obj [("pdpGetLayout", .obj [("components",
    .arr [.obj [("name", .str "product_content"), ("data",
      .arr [.obj [("name", .str "Widget"), ("price", .obj [("value", .int 15000)]),
                  ("stock", .obj [("value", .str "42")])]])]])])])]

/-- Witness for C3 at concrete response documents covering every branch of
the case analysis. -/
theorem c3_extract_case_analysis_witness :
    extract c3ResponseErr = .error (.remoteError (.str "boom"))
    ∧ extract c3ResponseEmptyErrs = .error .malformed
    ∧ extract c3ResponseNoMsg = .error .malformed
    ∧ extract c3ResponseNoContent = .error .shapeMismatch
    ∧ extract c3ResponseBadName = .error .shapeMismatch
    ∧ (jsonGet c3ResponseGood "errors" = none
      ∧ (extractData c3ResponseGood).bind (fun d => asStr (jsonIndex d "name"))
          = some "Widget"
      ∧ (extractData c3ResponseGood).bind
          (fun d => asI64 (jsonIndex (jsonIndex d "price") "value")) = some 15000
      ∧ (extractData c3ResponseGood).bind
          (fun d => (asStr (jsonIndex (jsonIndex d "stock") "value")).bind parseI64)
        = some 42) :=
  ⟨(c3_extract_case_analysis c3ResponseErr).1
      (.arr [.obj [("message", .str "boom")]]) (.obj [("message", .str "boom")])
      (.str "boom") rfl rfl rfl,
   (c3_extract_case_analysis c3ResponseEmptyErrs).2.1 (.arr []) rfl rfl,
   (c3_extract_case_analysis c3ResponseNoMsg).2.2.1
      (.arr [.obj [("code", .int 1)]]) (.obj [("code", .int 1)]) rfl rfl rfl,
   (c3_extract_case_analysis c3ResponseNoContent).2.2.2.1 rfl
      [.obj [("name", .str "product_detail")]] rfl
      (by
        intro c hc
        simp only [List.mem_singleton] at hc
        subst hc
        exact ⟨.str "product_detail", rfl, by decide⟩),
   (c3_extract_case_analysis c3ResponseBadName).2.2.2.2.1 rfl c3BadData rfl
      (Or.inl rfl),
   (c3_extract_case_analysis c3ResponseGood).2.2.2.2.2 ⟨"Widget", 15000, 42⟩ rfl⟩
